import Mathlib

/-! Yandex.Disk authorization pages: analytics.js and index-success.js

A shallow embedding of the two page scripts under
`src/static/js/telegram_bot/yd_auth/`.

* `analytics.js`  : `main` reads `data-status` of the first `<main>` element and
  reports it through `gtag`.
* `index-success.js` : `run_redirect` reads `data-redirect-url` of the element
  with id `redirect-message`, shows a countdown, appends a fallback link and
  navigates.

A run of a handler is modelled as a completion (normal return or uncaught
error) together with the ordered list of steps it performed on its
environment.  A timed wait (`await` of a promise resolved by
`window.setTimeout`) is one step of the run; the browser is assumed to fire
every timer it is asked for.  The assignment to `window.location.href` parses
its value as a URL and throws when that fails; the parser's verdict is part of
the document (`Document.parsesAsUrl`).
-/

namespace YdAuth

/-! ## JavaScript values and errors -/

/-- The JavaScript values that occur in the two scripts. -/
inductive JsValue where
  | undefined
  | null
  | str (s : String)
  deriving DecidableEq, Repr

/-- An uncaught error.  The errors the two scripts can raise are the
`TypeError` of reading property `property` of `base`, where `base` is `null`
or `undefined`, and the `SyntaxError` of assigning to `window.location.href`
a value `url` that does not parse as a URL. -/
inductive JsError where
  | typeError (base : JsValue) (property : String)
  | syntaxError (url : String)
  deriving DecidableEq, Repr

/-- How a run of a function ends. -/
inductive Completion where
  | returned
  | thrown (e : JsError)
  deriving DecidableEq, Repr

/-! ## `String.prototype.trim` -/

/-- ECMAScript `WhiteSpace` and `LineTerminator` code points: the characters
that `String.prototype.trim` strips. -/
def isJsWhiteSpace (c : Char) : Bool :=
  let n := c.toNat
  n = 0x09 || n = 0x0A || n = 0x0B || n = 0x0C || n = 0x0D || n = 0x20 ||
  n = 0xA0 || n = 0x1680 || (0x2000 ≤ n && n ≤ 0x200A) ||
  n = 0x2028 || n = 0x2029 || n = 0x202F || n = 0x205F || n = 0x3000 ||
  n = 0xFEFF

/-- `String.prototype.trim`: the string without its leading and trailing
white space. -/
def jsTrim (s : String) : String :=
  String.mk ((s.data.dropWhile isJsWhiteSpace).reverse.dropWhile isJsWhiteSpace).reverse

/-! ## The document -/

/-- An element of the page: its (lower-case) tag name and its attributes in
source order. -/
structure Element where
  tagName : String
  attributes : List (String × String)
  deriving DecidableEq, Repr

/-- The page as the scripts see it: `document.readyState`, the elements in
tree order, and the verdict of the browser's URL parser on a string, taken
relative to the base URL of this document (`true` when the string parses). -/
structure Document where
  readyState : String
  elements : List Element
  parsesAsUrl : String → Bool

/-- `element.getAttribute(name)` restricted to present attributes. -/
def Element.getAttribute (e : Element) (name : String) : Option String :=
  (e.attributes.find? (fun kv => kv.1 == name)).map (fun kv => kv.2)

/-- `document.getElementsByTagName(tag)`. -/
def getElementsByTagName (doc : Document) (tag : String) : List Element :=
  doc.elements.filter (fun e => e.tagName == tag)

/-- `document.getElementById(id)`: the first element in tree order whose `id`
attribute is `id`, or `null` (here `none`). -/
def getElementById (doc : Document) (id : String) : Option Element :=
  doc.elements.find? (fun e => e.getAttribute "id" == some id)

/-- The attribute behind a `dataset` property: `data-` followed by the
property name in which every ASCII upper-case letter `X` becomes `-x`. -/
def datasetAttributeName (prop : String) : String :=
  "data-" ++ String.mk (prop.data.flatMap (fun c => if c.isUpper then [ '-', c.toLower] else [c]))

/-- The value of `element.dataset[prop]`: the attribute value, or `undefined`
when the attribute is absent. -/
def Element.dataset (e : Element) (prop : String) : JsValue :=
  match e.getAttribute (datasetAttributeName prop) with
  | some v => .str v
  | none => .undefined

/-! ## Steps of a run -/

/-- A DOM node built by a script. -/
inductive Node where
  | text (data : String)
  | element (tagName : String) (attributes : List (String × String)) (children : List Node)

/-- One step of a run, as seen by the handler's environment. -/
inductive Step where
  /-- The call `gtag(command, eventName, params)`. -/
  | gtag (command : String) (eventName : String) (params : List (String × JsValue))
  /-- The assignment `element.innerText = text` on the redirect-message element. -/
  | setInnerText (text : String)
  /-- The suspension `await new Promise(resolve => window.setTimeout(resolve, ms))`. -/
  | wait (ms : Nat)
  /-- The statement `redirectSeconds--`, with the value before and after. -/
  | decrement (before : Int) (after : Int)
  /-- The call `element.appendChild(child)` on the redirect-message element. -/
  | appendChild (child : Node)
  /-- The assignment `window.location.href = url`. -/
  | setLocationHref (url : String)

/-- A run of a handler: how it ended and what it did, in order. -/
structure Run where
  completion : Completion
  trace : List Step

/-- What evaluating a script's top level did: the event types for which
`main` was registered with `document.addEventListener`, and the runs of
`main` the script started itself. -/
structure ScriptRun where
  listeners : List String
  calls : List Run

/-- The browser dispatching an event of type `type` at the document: every
listener registered for that type runs the handler, on the document as it
is then. -/
def dispatchEvent (handler : Document → Run) (type : String) (s : ScriptRun)
    (doc : Document) : List Run :=
  (s.listeners.filter (fun t => t == type)).map (fun _ => handler doc)

/-- The children of the redirect-message element after one step: assigning
`innerText` replaces all children by one text node (by none for the empty
string), `appendChild` adds a last child, other steps leave them alone. -/
def applyStep (children : List Node) : Step → List Node
  | .setInnerText t => if t = "" then [] else [.text t]
  | .appendChild c => children ++ [c]
  | _ => children

/-- The children of the redirect-message element after a trace. -/
def childrenAfter (children : List Node) (trace : List Step) : List Node :=
  trace.foldl applyStep children

/-- The texts assigned to `element.innerText`, in order. -/
def textWrites : List Step → List String
  | [] => []
  | .setInnerText t :: rest => t :: textWrites rest
  | _ :: rest => textWrites rest

/-- The durations of the timed waits, in order. -/
def waits : List Step → List Nat
  | [] => []
  | .wait ms :: rest => ms :: waits rest
  | _ :: rest => waits rest

/-- The decrements of the counter, in order, as (before, after). -/
def decrements : List Step → List (Int × Int)
  | [] => []
  | .decrement b a :: rest => (b, a) :: decrements rest
  | _ :: rest => decrements rest

/-- The values assigned to `window.location.href`, in order. -/
def navigations : List Step → List String
  | [] => []
  | .setLocationHref u :: rest => u :: navigations rest
  | _ :: rest => navigations rest

/-- The nodes appended to the redirect-message element, in order. -/
def appended : List Step → List Node
  | [] => []
  | .appendChild c :: rest => c :: appended rest
  | _ :: rest => appended rest

/-- The calls of `gtag`, in order, as (command, event name, params). -/
def gtagCalls : List Step → List (String × String × List (String × JsValue))
  | [] => []
  | .gtag c e ps :: rest => (c, e, ps) :: gtagCalls rest
  | _ :: rest => gtagCalls rest

/-- Auxiliary for `decrementsWithWaits`: `pending` holds the waits seen since
the previous decrement. -/
def decrementsWithWaitsAux (pending : List Nat) : List Step → List (Int × List Nat)
  | [] => []
  | .wait ms :: rest => decrementsWithWaitsAux (pending ++ [ms]) rest
  | .decrement b _ :: rest => (b, pending) :: decrementsWithWaitsAux [] rest
  | _ :: rest => decrementsWithWaitsAux pending rest

/-- For every decrement of the counter, in order: the value it decrements
from, and the durations of the waits that precede it since the previous
decrement (since the start of the trace for the first one). -/
def decrementsWithWaits (trace : List Step) : List (Int × List Nat) :=
  decrementsWithWaitsAux [] trace

/-- The reading of "the trimmed value": `target` is `raw` without a leading
and a trailing run of white space, and `target` itself neither begins nor
ends with white space. -/
def IsTrimOf (target raw : String) : Prop :=
  ∃ leading trailing : List Char,
    raw.data = leading ++ target.data ++ trailing ∧
    (∀ c ∈ leading, isJsWhiteSpace c = true) ∧
    (∀ c ∈ trailing, isJsWhiteSpace c = true) ∧
    (∀ c, target.data.head? = some c → isJsWhiteSpace c = false) ∧
    (∀ c, target.data.getLast? = some c → isJsWhiteSpace c = false)

/-- The steps that follow the first assignment of `text` to `innerText`. -/
def stepsAfterWrite (text : String) : List Step → List Step
  | [] => []
  | .setInnerText t :: rest => if t = text then rest else stepsAfterWrite text rest
  | _ :: rest => stepsAfterWrite text rest

/-! ## analytics.js -/

namespace Analytics

/-- `function main()` of analytics.js. -/
def main (doc : Document) : Run :=
  -- const main = document.getElementsByTagName("main")[0];
  match (getElementsByTagName doc "main")[0]? with
  | none =>
    -- main.dataset on undefined
    ⟨.thrown (.typeError .undefined "dataset"), []⟩
  | some main =>
    -- const status = main.dataset.status;
    let status := main.dataset "status"
    ⟨.returned,
      [.gtag "event" "yandex_disk_authorization"
        [("event_category", .str "authorization"), ("event_label", status)]]⟩

/-- The ready-state trigger of analytics.js (lines 16-20). -/
def script (doc : Document) : ScriptRun :=
  if doc.readyState = "loading" then
    -- document.addEventListener("DOMContentLoaded", main);
    ⟨["DOMContentLoaded"], []⟩
  else
    -- main();
    ⟨[], [main doc]⟩

/-- All runs of `main` over one page load: the script is evaluated while the
document is `docEval`; the browser fires `DOMContentLoaded` once, and when the
script was evaluated during `loading` the event comes after the evaluation,
with the document `docReady`.  When no listener was registered the event
runs nothing, whether it comes before or after the evaluation. -/
def pageLoad (docEval docReady : Document) : List Run :=
  let s := script docEval
  s.calls ++ dispatchEvent main "DOMContentLoaded" s docReady

end Analytics

/-! ## index-success.js -/

namespace IndexSuccess

/-- The text written to the redirect-message element for the value
`redirectSeconds` of the counter (lines 20-23). -/
def countdownText (redirectSeconds : Int) : String :=
  "You will be automatically redirected to the bot " ++
  ("in " ++ toString redirectSeconds ++ ".")

/-- The `while (redirectSeconds >= 0)` loop of `run_redirect` (lines 19-35),
started with the counter at `redirectSeconds`. -/
def countdownLoop (redirectSeconds : Int) : List Step :=
  if redirectSeconds ≥ 0 then
    -- element.innerText = ...
    [Step.setInnerText (countdownText redirectSeconds)]
    -- if (redirectSeconds > 0) await setTimeout 1000
    ++ (if redirectSeconds > 0 then [Step.wait 1000] else [])
    -- redirectSeconds--;
    ++ [Step.decrement redirectSeconds (redirectSeconds - 1)]
    ++ countdownLoop (redirectSeconds - 1)
  else
    []
termination_by (redirectSeconds + 1).toNat
decreasing_by omega

/-- The text that `innerHTML = '&nbsp;'` parses to: the one character U+00A0,
NO-BREAK SPACE. -/
def nbsp : String :=
  String.singleton (Char.ofNat 0xA0)

/-- The fallback fragment built in lines 37-44: a `span` whose `innerHTML` is
`&nbsp;` (one text node holding U+00A0) and to which the anchor is appended. -/
def fallbackElement (redirectUrl : String) : Node :=
  -- linkElement.innerText = "Click here if it didn't happen."; linkElement.href = redirectUrl;
  let linkElement : Node :=
    .element "a" [("href", redirectUrl)] [.text "Click here if it didn't happen."]
  -- fallbackElement.innerHTML = '&nbsp;'; fallbackElement.appendChild(linkElement);
  .element "span" [] [.text nbsp, linkElement]

/-- `async function run_redirect()` of index-success.js. -/
def run_redirect (doc : Document) : Run :=
  -- const element = document.getElementById('redirect-message');
  match getElementById doc "redirect-message" with
  | none =>
    -- element.dataset on null
    ⟨.thrown (.typeError .null "dataset"), []⟩
  | some element =>
    -- let redirectUrl = element.dataset.redirectUrl.trim();
    match element.dataset "redirectUrl" with
    | .str raw =>
      let redirectUrl := jsTrim raw
      -- if (!redirectUrl) return;   (a string is falsy exactly when it is empty)
      if redirectUrl = "" then
        ⟨.returned, []⟩
      else
        -- let redirectSeconds = 5; while ...; element.appendChild(fallbackElement);
        let trace := countdownLoop 5 ++ [.appendChild (fallbackElement redirectUrl)]
        -- window.location.href = redirectUrl;
        if doc.parsesAsUrl redirectUrl then
          ⟨.returned, trace ++ [.setLocationHref redirectUrl]⟩
        else
          -- the setter throws, nothing is navigated to
          ⟨.thrown (.syntaxError redirectUrl), trace⟩
    | v =>
      -- .trim on undefined
      ⟨.thrown (.typeError v "trim"), []⟩

/-- `async function main()` of index-success.js: `await run_redirect()`. -/
def main (doc : Document) : Run :=
  run_redirect doc

/-- The ready-state trigger of index-success.js (lines 51-55). -/
def script (doc : Document) : ScriptRun :=
  if doc.readyState = "loading" then
    -- document.addEventListener('DOMContentLoaded', main);
    ⟨["DOMContentLoaded"], []⟩
  else
    -- main();
    ⟨[], [main doc]⟩

/-- All runs of `main` over one page load of index-success.js: the script is
evaluated while the document is `docEval`; the browser fires
`DOMContentLoaded` once, and when the script was evaluated during `loading`
the event comes after the evaluation, with the document `docReady`. -/
def pageLoad (docEval docReady : Document) : List Run :=
  let s := script docEval
  s.calls ++ dispatchEvent main "DOMContentLoaded" s docReady

end IndexSuccess

/-! ## Sample documents -/

/-- The URL parser's verdict on the targets of the sample pages: `http://[`
does not parse (the bracket opens an IPv6 host that is never closed); the
absolute URL `https://example.com/x` does. -/
def sampleParsesAsUrl (url : String) : Bool :=
  url != "http://["

/-- A page whose first `<main>` element carries `data-status="success"`,
evaluated after parsing. -/
def sampleStatusPage : Document :=
  ⟨"complete", [⟨"div", [("id", "top")]⟩, ⟨"main", [("data-status", "success")]⟩],
    sampleParsesAsUrl⟩

/-- A page whose `<main>` element has no `data-status` attribute. -/
def sampleNoStatusPage : Document :=
  ⟨"complete", [⟨"main", [("class", "content")]⟩], sampleParsesAsUrl⟩

/-- A page with neither a `<main>` element nor a redirect-message element. -/
def sampleBarePage : Document :=
  ⟨"complete", [⟨"div", [("id", "other")]⟩], sampleParsesAsUrl⟩

/-- A page whose redirect-message element carries the target
`https://example.com/x`. -/
def sampleRedirectPage : Document :=
  ⟨"complete",
    [⟨"p", [("id", "redirect-message"), ("data-redirect-url", "https://example.com/x")]⟩],
    sampleParsesAsUrl⟩

/-- A page whose redirect-message element carries the same target padded with
white space: two blanks before it, a blank and a line feed after it. -/
def samplePaddedPage : Document :=
  ⟨"complete",
    [⟨"p", [("id", "redirect-message"),
            ("data-redirect-url", "  https://example.com/x \n")]⟩],
    sampleParsesAsUrl⟩

/-- A page whose redirect-message element carries the target `http://[`,
which does not parse as a URL. -/
def sampleBadUrlPage : Document :=
  ⟨"complete", [⟨"p", [("id", "redirect-message"), ("data-redirect-url", "http://[")]⟩],
    sampleParsesAsUrl⟩

/-- A page whose redirect-message element carries a white-space-only target. -/
def sampleBlankPage : Document :=
  ⟨"complete", [⟨"p", [("id", "redirect-message"), ("data-redirect-url", " \t\n ")]⟩],
    sampleParsesAsUrl⟩

/-- A page whose redirect-message element has no `data-redirect-url`. -/
def sampleNoUrlPage : Document :=
  ⟨"complete", [⟨"p", [("id", "redirect-message")]⟩], sampleParsesAsUrl⟩

/-- The redirect page while the document is still being parsed. -/
def sampleLoadingPage : Document :=
  { sampleRedirectPage with readyState := "loading" }

/-! ## Helper lemmas -/

theorem dataset_status_of_attribute (el : Element) (S : String)
    (h : el.getAttribute "data-status" = some S) : el.dataset "status" = .str S := by
  have hn : datasetAttributeName "status" = "data-status" := by decide
  simp [Element.dataset, hn, h]

theorem dataset_status_of_no_attribute (el : Element)
    (h : el.getAttribute "data-status" = none) : el.dataset "status" = .undefined := by
  have hn : datasetAttributeName "status" = "data-status" := by decide
  simp [Element.dataset, hn, h]

theorem dataset_redirectUrl_of_attribute (el : Element) (raw : String)
    (h : el.getAttribute "data-redirect-url" = some raw) :
    el.dataset "redirectUrl" = .str raw := by
  have hn : datasetAttributeName "redirectUrl" = "data-redirect-url" := by decide
  simp [Element.dataset, hn, h]

theorem dataset_redirectUrl_of_no_attribute (el : Element)
    (h : el.getAttribute "data-redirect-url" = none) :
    el.dataset "redirectUrl" = .undefined := by
  have hn : datasetAttributeName "redirectUrl" = "data-redirect-url" := by decide
  simp [Element.dataset, hn, h]

theorem dataset_redirectUrl_eq_str_iff (el : Element) (raw : String) :
    el.dataset "redirectUrl" = .str raw ↔
      el.getAttribute "data-redirect-url" = some raw := by
  have hn : datasetAttributeName "redirectUrl" = "data-redirect-url" := by decide
  unfold Element.dataset
  rw [hn]
  cases hg : el.getAttribute "data-redirect-url" <;> simp

/-- Trimming yields the empty string exactly for the strings made of white
space only (the empty string included). -/
theorem jsTrim_eq_empty_iff (s : String) :
    jsTrim s = "" ↔ ∀ c ∈ s.data, isJsWhiteSpace c = true := by
  unfold jsTrim
  constructor
  · intro h
    have h1 : ((s.data.dropWhile isJsWhiteSpace).reverse.dropWhile isJsWhiteSpace).reverse
        = [] := by
      have := congrArg String.data h
      simpa using this
    rw [List.reverse_eq_nil_iff, List.dropWhile_eq_nil_iff] at h1
    by_contra hcon
    push_neg at hcon
    obtain ⟨c, hc, hcw⟩ := hcon
    have hne : s.data.dropWhile isJsWhiteSpace ≠ [] := by
      intro h0
      rw [List.dropWhile_eq_nil_iff] at h0
      exact hcw (h0 c hc)
    have hhead := List.head_dropWhile_not isJsWhiteSpace s.data hne
    have hmem : (s.data.dropWhile isJsWhiteSpace).head hne ∈
        (s.data.dropWhile isJsWhiteSpace).reverse :=
      List.mem_reverse.mpr (List.head_mem hne)
    rw [h1 _ hmem] at hhead
    exact absurd hhead (by decide)
  · intro h
    have h0 : s.data.dropWhile isJsWhiteSpace = [] := List.dropWhile_eq_nil_iff.mpr h
    rw [h0]
    rfl

/-- The result of `jsTrim` is the trimmed value of its argument: what is cut
off on either side is white space, and what is left neither begins nor ends
with white space. -/
theorem jsTrim_isTrimOf (raw : String) : IsTrimOf (jsTrim raw) raw := by
  unfold IsTrimOf jsTrim
  set m := raw.data.dropWhile isJsWhiteSpace with hm
  refine ⟨raw.data.takeWhile isJsWhiteSpace,
    ((m.reverse).takeWhile isJsWhiteSpace).reverse, ?_, ?_, ?_, ?_, ?_⟩
  · have h1 : m = ((m.reverse).dropWhile isJsWhiteSpace).reverse ++
        ((m.reverse).takeWhile isJsWhiteSpace).reverse := by
      rw [← List.reverse_append, List.takeWhile_append_dropWhile, List.reverse_reverse]
    show raw.data = _ ++ ((m.reverse).dropWhile isJsWhiteSpace).reverse ++ _
    rw [List.append_assoc, ← h1, hm, List.takeWhile_append_dropWhile]
  · intro c hc
    exact List.mem_takeWhile_imp hc
  · intro c hc
    exact List.mem_takeWhile_imp (List.mem_reverse.mp hc)
  · intro c hc
    show isJsWhiteSpace c = false
    have hc2 : (((m.reverse).dropWhile isJsWhiteSpace).reverse).head? = some c := hc
    have hpre : ((m.reverse).dropWhile isJsWhiteSpace).reverse <+: m := by
      refine ⟨((m.reverse).takeWhile isJsWhiteSpace).reverse, ?_⟩
      rw [← List.reverse_append, List.takeWhile_append_dropWhile, List.reverse_reverse]
    have hmhead : m.head? = some c := by
      obtain ⟨t, ht⟩ := hpre
      rw [← ht]
      cases hl : ((m.reverse).dropWhile isJsWhiteSpace).reverse with
      | nil => rw [hl] at hc2; simp at hc2
      | cons a l => rw [hl] at hc2; simpa using hc2
    have := List.head?_dropWhile_not isJsWhiteSpace raw.data
    rw [← hm, hmhead] at this
    simpa using this
  · intro c hc
    show isJsWhiteSpace c = false
    have hc2 : (((m.reverse).dropWhile isJsWhiteSpace).reverse).getLast? = some c := hc
    rw [List.getLast?_reverse] at hc2
    have := List.head?_dropWhile_not isJsWhiteSpace m.reverse
    rw [hc2] at this
    simpa using this

theorem countdownLoop_neg (n : Int) (h : n < 0) : IndexSuccess.countdownLoop n = [] := by
  rw [IndexSuccess.countdownLoop, if_neg (by omega)]

theorem countdownLoop_pos (n : Int) (h : 0 < n) :
    IndexSuccess.countdownLoop n =
      .setInnerText (IndexSuccess.countdownText n) :: .wait 1000 ::
        .decrement n (n - 1) :: IndexSuccess.countdownLoop (n - 1) := by
  rw [IndexSuccess.countdownLoop, if_pos (by omega), if_pos (by omega)]
  rfl

theorem countdownLoop_zero :
    IndexSuccess.countdownLoop 0 =
      [.setInnerText (IndexSuccess.countdownText 0), .decrement 0 (-1)] := by
  rw [IndexSuccess.countdownLoop, if_pos (by omega), if_neg (by omega),
    countdownLoop_neg _ (by omega)]
  rfl

/-- The loop started at 5, step by step. -/
theorem countdownLoop_five :
    IndexSuccess.countdownLoop 5 =
      [.setInnerText "You will be automatically redirected to the bot in 5.",
       .wait 1000, .decrement 5 4,
       .setInnerText "You will be automatically redirected to the bot in 4.",
       .wait 1000, .decrement 4 3,
       .setInnerText "You will be automatically redirected to the bot in 3.",
       .wait 1000, .decrement 3 2,
       .setInnerText "You will be automatically redirected to the bot in 2.",
       .wait 1000, .decrement 2 1,
       .setInnerText "You will be automatically redirected to the bot in 1.",
       .wait 1000, .decrement 1 0,
       .setInnerText "You will be automatically redirected to the bot in 0.",
       .decrement 0 (-1)] := by
  have e5 : IndexSuccess.countdownText 5 =
      "You will be automatically redirected to the bot in 5." := by decide
  have e4 : IndexSuccess.countdownText 4 =
      "You will be automatically redirected to the bot in 4." := by decide
  have e3 : IndexSuccess.countdownText 3 =
      "You will be automatically redirected to the bot in 3." := by decide
  have e2 : IndexSuccess.countdownText 2 =
      "You will be automatically redirected to the bot in 2." := by decide
  have e1 : IndexSuccess.countdownText 1 =
      "You will be automatically redirected to the bot in 1." := by decide
  have e0 : IndexSuccess.countdownText 0 =
      "You will be automatically redirected to the bot in 0." := by decide
  rw [countdownLoop_pos 5 (by decide), show (5 : Int) - 1 = 4 by rfl,
    countdownLoop_pos 4 (by decide), show (4 : Int) - 1 = 3 by rfl,
    countdownLoop_pos 3 (by decide), show (3 : Int) - 1 = 2 by rfl,
    countdownLoop_pos 2 (by decide), show (2 : Int) - 1 = 1 by rfl,
    countdownLoop_pos 1 (by decide), show (1 : Int) - 1 = 0 by rfl,
    countdownLoop_zero, e5, e4, e3, e2, e1, e0]

/-- With a redirect-message element whose `data-redirect-url` trims to a
non-empty target, `run_redirect` runs the loop and appends the fallback
fragment; then it navigates and returns when the target parses as a URL, and
throws without navigating when it does not. -/
theorem run_redirect_of_target (doc : Document) (el : Element) (raw : String)
    (hel : getElementById doc "redirect-message" = some el)
    (hraw : el.getAttribute "data-redirect-url" = some raw)
    (hne : jsTrim raw ≠ "") :
    IndexSuccess.run_redirect doc =
      if doc.parsesAsUrl (jsTrim raw) then
        ⟨.returned,
          IndexSuccess.countdownLoop 5 ++
            [.appendChild (IndexSuccess.fallbackElement (jsTrim raw))] ++
            [.setLocationHref (jsTrim raw)]⟩
      else
        ⟨.thrown (.syntaxError (jsTrim raw)),
          IndexSuccess.countdownLoop 5 ++
            [.appendChild (IndexSuccess.fallbackElement (jsTrim raw))]⟩ := by
  unfold IndexSuccess.run_redirect
  rw [hel]
  simp only [dataset_redirectUrl_of_attribute el raw hraw]
  rw [if_neg hne]

/-- How `run_redirect` ends for a non-empty target. -/
theorem run_redirect_completion_of_target (doc : Document) (el : Element) (raw : String)
    (hel : getElementById doc "redirect-message" = some el)
    (hraw : el.getAttribute "data-redirect-url" = some raw)
    (hne : jsTrim raw ≠ "") :
    (IndexSuccess.run_redirect doc).completion =
      if doc.parsesAsUrl (jsTrim raw) then .returned
      else .thrown (.syntaxError (jsTrim raw)) := by
  rw [run_redirect_of_target doc el raw hel hraw hne]
  cases doc.parsesAsUrl (jsTrim raw) <;> rfl

/-- With a redirect-message element whose `data-redirect-url` trims to the
empty string, `run_redirect` returns at the guard. -/
theorem run_redirect_of_blank (doc : Document) (el : Element) (raw : String)
    (hel : getElementById doc "redirect-message" = some el)
    (hraw : el.getAttribute "data-redirect-url" = some raw)
    (hempty : jsTrim raw = "") :
    IndexSuccess.run_redirect doc = ⟨.returned, []⟩ := by
  unfold IndexSuccess.run_redirect
  rw [hel]
  simp only [dataset_redirectUrl_of_attribute el raw hraw]
  rw [if_pos hempty]

/-- With a redirect-message element that has no `data-redirect-url`,
`run_redirect` throws at `.trim`. -/
theorem run_redirect_of_no_attribute (doc : Document) (el : Element)
    (hel : getElementById doc "redirect-message" = some el)
    (hraw : el.getAttribute "data-redirect-url" = none) :
    IndexSuccess.run_redirect doc = ⟨.thrown (.typeError .undefined "trim"), []⟩ := by
  unfold IndexSuccess.run_redirect
  rw [hel]
  simp only [dataset_redirectUrl_of_no_attribute el hraw]

/-- Without a redirect-message element, `run_redirect` throws at `.dataset`. -/
theorem run_redirect_of_no_element (doc : Document)
    (hel : getElementById doc "redirect-message" = none) :
    IndexSuccess.run_redirect doc = ⟨.thrown (.typeError .null "dataset"), []⟩ := by
  unfold IndexSuccess.run_redirect
  rw [hel]

/-- The whole trace of `run_redirect` for a non-empty target. -/
theorem run_redirect_trace_of_target (doc : Document) (el : Element) (raw : String)
    (hel : getElementById doc "redirect-message" = some el)
    (hraw : el.getAttribute "data-redirect-url" = some raw)
    (hne : jsTrim raw ≠ "") :
    (IndexSuccess.run_redirect doc).trace =
      [.setInnerText "You will be automatically redirected to the bot in 5.",
       .wait 1000, .decrement 5 4,
       .setInnerText "You will be automatically redirected to the bot in 4.",
       .wait 1000, .decrement 4 3,
       .setInnerText "You will be automatically redirected to the bot in 3.",
       .wait 1000, .decrement 3 2,
       .setInnerText "You will be automatically redirected to the bot in 2.",
       .wait 1000, .decrement 2 1,
       .setInnerText "You will be automatically redirected to the bot in 1.",
       .wait 1000, .decrement 1 0,
       .setInnerText "You will be automatically redirected to the bot in 0.",
       .decrement 0 (-1),
       .appendChild (IndexSuccess.fallbackElement (jsTrim raw))] ++
      (if doc.parsesAsUrl (jsTrim raw) then [.setLocationHref (jsTrim raw)] else []) := by
  rw [run_redirect_of_target doc el raw hel hraw hne, countdownLoop_five]
  cases doc.parsesAsUrl (jsTrim raw) <;> rfl

/-- Started at any `n ≥ 0`, the loop waits `n` times, 1000 ms each, and
decrements `n + 1` times. -/
theorem countdownLoop_waits_and_decrements (n : Nat) :
    waits (IndexSuccess.countdownLoop (n : Int)) = List.replicate n 1000 ∧
    (decrements (IndexSuccess.countdownLoop (n : Int))).length = n + 1 := by
  induction n with
  | zero =>
    rw [show ((0 : Nat) : Int) = 0 by rfl, countdownLoop_zero]
    exact ⟨rfl, rfl⟩
  | succ k ih =>
    have hk : ((k + 1 : Nat) : Int) - 1 = (k : Int) := by omega
    rw [countdownLoop_pos _ (by omega), hk]
    simp [waits, decrements, ih.1, ih.2, List.replicate_succ]

theorem sampleRedirectPage_target : jsTrim "https://example.com/x" ≠ "" := by decide

/-! ## analytics.js: the status report -/

/-- C1: for every status `S` carried by the `data-status` attribute of the
first `<main>` element, a run of `main` of analytics.js returns normally and
its whole trace is one call of `gtag` with the arguments `"event"`,
`"yandex_disk_authorization"` and the properties `event_category` =
`"authorization"`, `event_label` = `S`; there is no other step. -/
theorem analytics_main_reports_status (doc : Document) (el : Element) (S : String)
    (hmain : (getElementsByTagName doc "main")[0]? = some el)
    (hstatus : el.getAttribute "data-status" = some S) :
    (Analytics.main doc).completion = .returned ∧
    (Analytics.main doc).trace =
      [.gtag "event" "yandex_disk_authorization"
        [("event_category", .str "authorization"), ("event_label", .str S)]] ∧
    gtagCalls (Analytics.main doc).trace =
      [("event", "yandex_disk_authorization",
        [("event_category", .str "authorization"), ("event_label", .str S)])] := by
  unfold Analytics.main
  rw [hmain]
  simp [dataset_status_of_attribute el S hstatus, gtagCalls]

/-- C1 at a page whose `<main>` element carries `data-status="success"`. -/
theorem analytics_main_reports_status_witness :
    (Analytics.main sampleStatusPage).completion = .returned ∧
    (Analytics.main sampleStatusPage).trace =
      [.gtag "event" "yandex_disk_authorization"
        [("event_category", .str "authorization"), ("event_label", .str "success")]] ∧
    gtagCalls (Analytics.main sampleStatusPage).trace =
      [("event", "yandex_disk_authorization",
        [("event_category", .str "authorization"), ("event_label", .str "success")])] :=
  analytics_main_reports_status sampleStatusPage ⟨"main", [("data-status", "success")]⟩
    "success" (by decide) (by decide)

/-- C8: when the first `<main>` element exists but has no `data-status`
attribute, `main` of analytics.js still returns normally, and its whole trace
is one call of `gtag` with event name `"yandex_disk_authorization"`,
`event_category` = `"authorization"` and `event_label` = `undefined`. -/
theorem analytics_main_without_status (doc : Document) (el : Element)
    (hmain : (getElementsByTagName doc "main")[0]? = some el)
    (hstatus : el.getAttribute "data-status" = none) :
    (Analytics.main doc).completion = .returned ∧
    (Analytics.main doc).trace =
      [.gtag "event" "yandex_disk_authorization"
        [("event_category", .str "authorization"), ("event_label", .undefined)]] := by
  unfold Analytics.main
  rw [hmain]
  simp [dataset_status_of_no_attribute el hstatus]

/-- C8 at a page whose `<main>` element has no `data-status`. -/
theorem analytics_main_without_status_witness :
    (Analytics.main sampleNoStatusPage).completion = .returned ∧
    (Analytics.main sampleNoStatusPage).trace =
      [.gtag "event" "yandex_disk_authorization"
        [("event_category", .str "authorization"), ("event_label", .undefined)]] :=
  analytics_main_without_status sampleNoStatusPage ⟨"main", [("class", "content")]⟩
    (by decide) (by decide)

/-! ## Absent elements and attributes -/

/-- C9: on a page without an element of id `redirect-message`, `run_redirect`
(and `main` of index-success.js, which awaits it) ends with the uncaught error
of reading `dataset` of `null`, with an empty trace; on a page without a
`<main>` element, `main` of analytics.js ends with the uncaught error of
reading `dataset` of `undefined`, with an empty trace.  In both cases no
text write, wait, append, navigation or `gtag` call precedes the error. -/
theorem absent_element_throws_before_any_effect (docR docA : Document)
    (hR : getElementById docR "redirect-message" = none)
    (hA : getElementsByTagName docA "main" = []) :
    IndexSuccess.run_redirect docR = ⟨.thrown (.typeError .null "dataset"), []⟩ ∧
    IndexSuccess.main docR = ⟨.thrown (.typeError .null "dataset"), []⟩ ∧
    Analytics.main docA = ⟨.thrown (.typeError .undefined "dataset"), []⟩ := by
  refine ⟨run_redirect_of_no_element docR hR, run_redirect_of_no_element docR hR, ?_⟩
  unfold Analytics.main
  rw [hA]
  rfl

/-- C9 at a page with neither element. -/
theorem absent_element_throws_before_any_effect_witness :
    IndexSuccess.run_redirect sampleBarePage = ⟨.thrown (.typeError .null "dataset"), []⟩ ∧
    IndexSuccess.main sampleBarePage = ⟨.thrown (.typeError .null "dataset"), []⟩ ∧
    Analytics.main sampleBarePage = ⟨.thrown (.typeError .undefined "dataset"), []⟩ :=
  absent_element_throws_before_any_effect sampleBarePage sampleBarePage
    (by decide) (by decide)

/-- C2: when the `data-redirect-url` value consists of white space only (the
empty value included), its trim is the empty string and `run_redirect`
returns normally with an empty trace: no text write, no wait, no append and
no navigation. -/
theorem blank_target_is_noop (doc : Document) (el : Element) (raw : String)
    (hel : getElementById doc "redirect-message" = some el)
    (hraw : el.getAttribute "data-redirect-url" = some raw)
    (hblank : ∀ c ∈ raw.data, isJsWhiteSpace c = true) :
    jsTrim raw = "" ∧
    IndexSuccess.run_redirect doc = ⟨.returned, []⟩ ∧
    textWrites (IndexSuccess.run_redirect doc).trace = [] ∧
    waits (IndexSuccess.run_redirect doc).trace = [] ∧
    (appended (IndexSuccess.run_redirect doc).trace).length = 0 ∧
    navigations (IndexSuccess.run_redirect doc).trace = [] := by
  have hempty : jsTrim raw = "" := (jsTrim_eq_empty_iff raw).mpr hblank
  have hrun := run_redirect_of_blank doc el raw hel hraw hempty
  rw [hrun]
  exact ⟨hempty, rfl, rfl, rfl, rfl, rfl⟩

/-- C2 at a page whose target is blank, tab, line feed, blank. -/
theorem blank_target_is_noop_witness :
    jsTrim " \t\n " = "" ∧
    IndexSuccess.run_redirect sampleBlankPage = ⟨.returned, []⟩ ∧
    textWrites (IndexSuccess.run_redirect sampleBlankPage).trace = [] ∧
    waits (IndexSuccess.run_redirect sampleBlankPage).trace = [] ∧
    (appended (IndexSuccess.run_redirect sampleBlankPage).trace).length = 0 ∧
    navigations (IndexSuccess.run_redirect sampleBlankPage).trace = [] :=
  blank_target_is_noop sampleBlankPage
    ⟨"p", [("id", "redirect-message"), ("data-redirect-url", " \t\n ")]⟩ " \t\n "
    (by decide) (by decide) (by decide)

/-- C10: when the redirect-message element exists but has no
`data-redirect-url` attribute, `run_redirect` ends with the uncaught error of
calling `trim` on `undefined`, with an empty trace.  And over all documents,
`run_redirect` returns normally with an empty trace exactly when the element
exists and carries the attribute with a value whose trim is empty. -/
theorem missing_url_attribute_throws (doc : Document) (el : Element)
    (hel : getElementById doc "redirect-message" = some el)
    (hraw : el.getAttribute "data-redirect-url" = none) :
    IndexSuccess.run_redirect doc = ⟨.thrown (.typeError .undefined "trim"), []⟩ ∧
    ∀ d : Document,
      (IndexSuccess.run_redirect d = ⟨.returned, []⟩ ↔
        ∃ e v, getElementById d "redirect-message" = some e ∧
          e.getAttribute "data-redirect-url" = some v ∧ jsTrim v = "") := by
  refine ⟨run_redirect_of_no_attribute doc el hel hraw, ?_⟩
  intro d
  constructor
  · intro h
    cases he : getElementById d "redirect-message" with
    | none =>
      rw [run_redirect_of_no_element d he] at h
      simp at h
    | some e =>
      cases hv : e.getAttribute "data-redirect-url" with
      | none =>
        rw [run_redirect_of_no_attribute d e he hv] at h
        simp at h
      | some v =>
        by_cases ht : jsTrim v = ""
        · exact ⟨e, v, rfl, hv, ht⟩
        · rw [run_redirect_of_target d e v he hv ht] at h
          split at h <;> simp at h
  · rintro ⟨e, v, he, hv, ht⟩
    exact run_redirect_of_blank d e v he hv ht

/-- C10 at a page whose redirect-message element has no `data-redirect-url`. -/
theorem missing_url_attribute_throws_witness :
    IndexSuccess.run_redirect sampleNoUrlPage =
      ⟨.thrown (.typeError .undefined "trim"), []⟩ ∧
    ∀ d : Document,
      (IndexSuccess.run_redirect d = ⟨.returned, []⟩ ↔
        ∃ e v, getElementById d "redirect-message" = some e ∧
          e.getAttribute "data-redirect-url" = some v ∧ jsTrim v = "") :=
  missing_url_attribute_throws sampleNoUrlPage ⟨"p", [("id", "redirect-message")]⟩
    (by decide) (by decide)

/-! ## index-success.js: countdown, fallback link and navigation -/

/-- C3: for every target whose trim is non-empty, `run_redirect` assigns the
countdown text exactly six times, the values being "You will be
automatically redirected to the bot in n." for n = 5, 4, 3, 2, 1, 0 in this
order (so nothing below 0 or above 5 is shown); the run then returns when the
target parses as a URL and ends with the `SyntaxError` of the navigation
when it does not. -/
theorem countdown_writes_five_to_zero (doc : Document) (el : Element) (raw : String)
    (hel : getElementById doc "redirect-message" = some el)
    (hraw : el.getAttribute "data-redirect-url" = some raw)
    (hne : jsTrim raw ≠ "") :
    (IndexSuccess.run_redirect doc).completion =
      (if doc.parsesAsUrl (jsTrim raw) then .returned
       else .thrown (.syntaxError (jsTrim raw))) ∧
    textWrites (IndexSuccess.run_redirect doc).trace =
      ["You will be automatically redirected to the bot in 5.",
       "You will be automatically redirected to the bot in 4.",
       "You will be automatically redirected to the bot in 3.",
       "You will be automatically redirected to the bot in 2.",
       "You will be automatically redirected to the bot in 1.",
       "You will be automatically redirected to the bot in 0."] ∧
    (textWrites (IndexSuccess.run_redirect doc).trace).length = 6 ∧
    textWrites (IndexSuccess.run_redirect doc).trace =
      ([5, 4, 3, 2, 1, 0] : List Int).map IndexSuccess.countdownText := by
  have hmap : ([5, 4, 3, 2, 1, 0] : List Int).map IndexSuccess.countdownText =
      ["You will be automatically redirected to the bot in 5.",
       "You will be automatically redirected to the bot in 4.",
       "You will be automatically redirected to the bot in 3.",
       "You will be automatically redirected to the bot in 2.",
       "You will be automatically redirected to the bot in 1.",
       "You will be automatically redirected to the bot in 0."] := by decide
  have hw : textWrites (IndexSuccess.run_redirect doc).trace =
      ["You will be automatically redirected to the bot in 5.",
       "You will be automatically redirected to the bot in 4.",
       "You will be automatically redirected to the bot in 3.",
       "You will be automatically redirected to the bot in 2.",
       "You will be automatically redirected to the bot in 1.",
       "You will be automatically redirected to the bot in 0."] := by
    rw [run_redirect_trace_of_target doc el raw hel hraw hne]
    cases doc.parsesAsUrl (jsTrim raw) <;> rfl
  rw [hmap, hw]
  exact ⟨run_redirect_completion_of_target doc el raw hel hraw hne, rfl, rfl, rfl⟩

/-- C3 at the page with target `https://example.com/x`. -/
theorem countdown_writes_five_to_zero_witness :
    (IndexSuccess.run_redirect sampleRedirectPage).completion = .returned ∧
    textWrites (IndexSuccess.run_redirect sampleRedirectPage).trace =
      ["You will be automatically redirected to the bot in 5.",
       "You will be automatically redirected to the bot in 4.",
       "You will be automatically redirected to the bot in 3.",
       "You will be automatically redirected to the bot in 2.",
       "You will be automatically redirected to the bot in 1.",
       "You will be automatically redirected to the bot in 0."] ∧
    (textWrites (IndexSuccess.run_redirect sampleRedirectPage).trace).length = 6 ∧
    textWrites (IndexSuccess.run_redirect sampleRedirectPage).trace =
      ([5, 4, 3, 2, 1, 0] : List Int).map IndexSuccess.countdownText := by
  have h := countdown_writes_five_to_zero sampleRedirectPage
    ⟨"p", [("id", "redirect-message"), ("data-redirect-url", "https://example.com/x")]⟩
    "https://example.com/x" (by decide) (by decide) (by decide)
  have hp : sampleRedirectPage.parsesAsUrl (jsTrim "https://example.com/x") = true := by
    decide
  rw [hp] at h
  exact h

/-- C4: for every target whose trim is non-empty, the trace of `run_redirect`
holds exactly one append, of the fallback fragment: a `span` holding first
the one character U+00A0 (NO-BREAK SPACE) and then an anchor with text
"Click here if it didn't happen." and `href` the trimmed target (the
attribute value without its leading and trailing white space).  The steps
before the append end their text writes with "... in 0.", append nothing and
do not navigate; what follows the append is the navigation alone when the
target parses as a URL and nothing when it does not; and in either case,
whatever the element held before, afterwards it holds the text "... in 0."
followed by the fragment. -/
theorem fallback_link_appended_after_countdown (doc : Document) (el : Element)
    (raw : String)
    (hel : getElementById doc "redirect-message" = some el)
    (hraw : el.getAttribute "data-redirect-url" = some raw)
    (hne : jsTrim raw ≠ "") :
    ∃ fragment before after,
      fragment = Node.element "span" []
        [.text (String.mk [Char.ofNat 0xA0]),
         .element "a" [("href", jsTrim raw)] [.text "Click here if it didn't happen."]] ∧
      IsTrimOf (jsTrim raw) raw ∧
      (IndexSuccess.run_redirect doc).trace = before ++ [.appendChild fragment] ++ after ∧
      (textWrites before).getLast? =
        some "You will be automatically redirected to the bot in 0." ∧
      appended before = [] ∧
      navigations before = [] ∧
      after =
        (if doc.parsesAsUrl (jsTrim raw) then [.setLocationHref (jsTrim raw)] else []) ∧
      appended (IndexSuccess.run_redirect doc).trace = [fragment] ∧
      ∀ children : List Node,
        childrenAfter children (IndexSuccess.run_redirect doc).trace =
          [.text "You will be automatically redirected to the bot in 0.", fragment] := by
  have htrace := run_redirect_trace_of_target doc el raw hel hraw hne
  refine ⟨IndexSuccess.fallbackElement (jsTrim raw), IndexSuccess.countdownLoop 5,
    (if doc.parsesAsUrl (jsTrim raw) then [.setLocationHref (jsTrim raw)] else []),
    rfl, jsTrim_isTrimOf raw, ?_, ?_, ?_, ?_, rfl, ?_, ?_⟩
  · rw [htrace, countdownLoop_five]
    rfl
  · rw [countdownLoop_five]; rfl
  · rw [countdownLoop_five]; rfl
  · rw [countdownLoop_five]; rfl
  · rw [htrace]
    cases doc.parsesAsUrl (jsTrim raw) <;> rfl
  · intro children
    rw [htrace]
    cases doc.parsesAsUrl (jsTrim raw) <;> rfl

/-- C4 at the page whose target is `https://example.com/x` padded with white
space: the anchor's `href` is the target without the padding. -/
theorem fallback_link_appended_after_countdown_witness :
    ∃ fragment before after,
      fragment = Node.element "span" []
        [.text (String.mk [Char.ofNat 0xA0]),
         .element "a" [("href", "https://example.com/x")]
           [.text "Click here if it didn't happen."]] ∧
      IsTrimOf "https://example.com/x" "  https://example.com/x \n" ∧
      (IndexSuccess.run_redirect samplePaddedPage).trace =
        before ++ [.appendChild fragment] ++ after ∧
      (textWrites before).getLast? =
        some "You will be automatically redirected to the bot in 0." ∧
      appended before = [] ∧
      navigations before = [] ∧
      after = [.setLocationHref "https://example.com/x"] ∧
      appended (IndexSuccess.run_redirect samplePaddedPage).trace = [fragment] ∧
      ∀ children : List Node,
        childrenAfter children (IndexSuccess.run_redirect samplePaddedPage).trace =
          [.text "You will be automatically redirected to the bot in 0.", fragment] := by
  have h := fallback_link_appended_after_countdown samplePaddedPage
    ⟨"p", [("id", "redirect-message"), ("data-redirect-url", "  https://example.com/x \n")]⟩
    "  https://example.com/x \n" (by decide) (by decide) (by decide)
  have ht : jsTrim "  https://example.com/x \n" = "https://example.com/x" := by decide
  have hp : samplePaddedPage.parsesAsUrl "https://example.com/x" = true := by decide
  rw [ht, hp] at h
  exact h

/-- C5, as stated, fails: on the page with target `http://[`, whose trim is
non-empty but which does not parse as a URL, `run_redirect` shows the
countdown and appends the fallback link, and then ends with the uncaught
`SyntaxError` of the assignment; `window.location.href` is never set. -/
theorem unparseable_target_is_not_navigated_to :
    jsTrim "http://[" ≠ "" ∧
    (IndexSuccess.run_redirect sampleBadUrlPage).completion =
      .thrown (.syntaxError "http://[") ∧
    navigations (IndexSuccess.run_redirect sampleBadUrlPage).trace = [] ∧
    (textWrites (IndexSuccess.run_redirect sampleBadUrlPage).trace).length = 6 ∧
    (appended (IndexSuccess.run_redirect sampleBadUrlPage).trace).length = 1 ∧
    ¬ ((IndexSuccess.run_redirect sampleBadUrlPage).completion = .returned ∧
        navigations (IndexSuccess.run_redirect sampleBadUrlPage).trace =
          [jsTrim "http://["]) := by
  have hne : jsTrim "http://[" ≠ "" := by decide
  have ht : jsTrim "http://[" = "http://[" := by decide
  have hp : sampleBadUrlPage.parsesAsUrl "http://[" = false := by decide
  have hc := run_redirect_completion_of_target sampleBadUrlPage
    ⟨"p", [("id", "redirect-message"), ("data-redirect-url", "http://[")]⟩
    "http://[" (by decide) (by decide) hne
  have htrace := run_redirect_trace_of_target sampleBadUrlPage
    ⟨"p", [("id", "redirect-message"), ("data-redirect-url", "http://[")]⟩
    "http://[" (by decide) (by decide) hne
  rw [ht, hp] at hc htrace
  rw [hc, htrace]
  refine ⟨hne, rfl, rfl, rfl, rfl, ?_⟩
  rintro ⟨h, -⟩
  simp at h

/-- C5, amended: for every target whose trim is non-empty and parses as a
URL, `run_redirect` (and `main` of index-success.js) returns normally;
`window.location.href` is assigned exactly once, the trimmed target (the
attribute value without its leading and trailing white space); that
assignment is the last step of the trace, and the steps before it end their
text writes with "... in 0.". -/
theorem navigation_once_and_last (doc : Document) (el : Element) (raw : String)
    (hel : getElementById doc "redirect-message" = some el)
    (hraw : el.getAttribute "data-redirect-url" = some raw)
    (hne : jsTrim raw ≠ "")
    (hparse : doc.parsesAsUrl (jsTrim raw) = true) :
    (IndexSuccess.run_redirect doc).completion = .returned ∧
    (IndexSuccess.main doc).completion = .returned ∧
    IsTrimOf (jsTrim raw) raw ∧
    navigations (IndexSuccess.run_redirect doc).trace = [jsTrim raw] ∧
    navigations (IndexSuccess.main doc).trace = [jsTrim raw] ∧
    ∃ before,
      (IndexSuccess.run_redirect doc).trace = before ++ [.setLocationHref (jsTrim raw)] ∧
      navigations before = [] ∧
      (textWrites before).getLast? =
        some "You will be automatically redirected to the bot in 0." := by
  have hc := run_redirect_completion_of_target doc el raw hel hraw hne
  have htrace := run_redirect_trace_of_target doc el raw hel hraw hne
  rw [hparse] at hc htrace
  unfold IndexSuccess.main
  refine ⟨hc, hc, jsTrim_isTrimOf raw, by rw [htrace]; rfl, by rw [htrace]; rfl,
    IndexSuccess.countdownLoop 5 ++
      [.appendChild (IndexSuccess.fallbackElement (jsTrim raw))], ?_, ?_, ?_⟩
  · rw [htrace, countdownLoop_five]
    rfl
  · rw [countdownLoop_five]; rfl
  · rw [countdownLoop_five]; rfl

/-- C5, amended, at the page whose target is `https://example.com/x` padded
with white space: the navigation goes to the target without the padding. -/
theorem navigation_once_and_last_witness :
    (IndexSuccess.run_redirect samplePaddedPage).completion = .returned ∧
    (IndexSuccess.main samplePaddedPage).completion = .returned ∧
    IsTrimOf "https://example.com/x" "  https://example.com/x \n" ∧
    navigations (IndexSuccess.run_redirect samplePaddedPage).trace =
      ["https://example.com/x"] ∧
    navigations (IndexSuccess.main samplePaddedPage).trace = ["https://example.com/x"] ∧
    ∃ before,
      (IndexSuccess.run_redirect samplePaddedPage).trace =
        before ++ [.setLocationHref "https://example.com/x"] ∧
      navigations before = [] ∧
      (textWrites before).getLast? =
        some "You will be automatically redirected to the bot in 0." := by
  have ht : jsTrim "  https://example.com/x \n" = "https://example.com/x" := by decide
  have h := navigation_once_and_last samplePaddedPage
    ⟨"p", [("id", "redirect-message"), ("data-redirect-url", "  https://example.com/x \n")]⟩
    "  https://example.com/x \n" (by decide) (by decide) (by decide) (by decide)
  rw [ht] at h
  exact h

/-- C7, as stated, fails: on the page with target `https://example.com/x` the
counter is decremented six times and waited for five times, and the last
decrement (from 0 to -1) is preceded by no wait; so it is not the case that
every decrement is preceded by exactly one wait of 1000 ms. -/
theorem not_every_decrement_has_a_wait :
    ¬ (∀ p ∈ decrementsWithWaits (IndexSuccess.run_redirect sampleRedirectPage).trace,
        p.2 = [1000]) ∧
    decrements (IndexSuccess.run_redirect sampleRedirectPage).trace =
      [(5, 4), (4, 3), (3, 2), (2, 1), (1, 0), (0, -1)] ∧
    waits (IndexSuccess.run_redirect sampleRedirectPage).trace =
      [1000, 1000, 1000, 1000, 1000] := by
  have htrace := run_redirect_trace_of_target sampleRedirectPage
    ⟨"p", [("id", "redirect-message"), ("data-redirect-url", "https://example.com/x")]⟩
    "https://example.com/x" (by decide) (by decide) (by decide)
  have hp : sampleRedirectPage.parsesAsUrl (jsTrim "https://example.com/x") = true := by
    decide
  rw [hp] at htrace
  rw [htrace]
  refine ⟨?_, rfl, rfl⟩
  intro h
  have h0 := h (0, []) (by
    simp [decrementsWithWaits, decrementsWithWaitsAux])
  simp at h0

/-- C7, amended: for every target whose trim is non-empty, the decrements of
the counter are those from 5, 4, 3, 2, 1 and 0; each decrement from a
positive value is preceded, since the previous decrement, by exactly one wait
of 1000 ms, and the decrement from 0 by none; no wait follows the write of
"... in 0."; there are five waits in all. -/
theorem one_wait_before_each_positive_decrement (doc : Document) (el : Element)
    (raw : String)
    (hel : getElementById doc "redirect-message" = some el)
    (hraw : el.getAttribute "data-redirect-url" = some raw)
    (hne : jsTrim raw ≠ "") :
    decrementsWithWaits (IndexSuccess.run_redirect doc).trace =
      [(5, [1000]), (4, [1000]), (3, [1000]), (2, [1000]), (1, [1000]), (0, [])] ∧
    (∀ p ∈ decrementsWithWaits (IndexSuccess.run_redirect doc).trace,
      (0 < p.1 → p.2 = [1000]) ∧ (p.1 ≤ 0 → p.2 = [])) ∧
    waits (stepsAfterWrite "You will be automatically redirected to the bot in 0."
      (IndexSuccess.run_redirect doc).trace) = [] ∧
    waits (IndexSuccess.run_redirect doc).trace = [1000, 1000, 1000, 1000, 1000] := by
  have htrace := run_redirect_trace_of_target doc el raw hel hraw hne
  have hd : decrementsWithWaits (IndexSuccess.run_redirect doc).trace =
      [(5, [1000]), (4, [1000]), (3, [1000]), (2, [1000]), (1, [1000]), (0, [])] := by
    rw [htrace]
    cases doc.parsesAsUrl (jsTrim raw) <;> rfl
  refine ⟨hd, ?_, ?_, ?_⟩
  · rw [hd]
    intro p hp
    simp only [List.mem_cons, List.mem_singleton, List.not_mem_nil, or_false] at hp
    rcases hp with rfl | rfl | rfl | rfl | rfl | rfl <;> simp
  · rw [htrace]
    cases doc.parsesAsUrl (jsTrim raw) <;> simp [stepsAfterWrite, waits]
  · rw [htrace]
    cases doc.parsesAsUrl (jsTrim raw) <;> rfl

/-- C7, amended, at the page with target `https://example.com/x`. -/
theorem one_wait_before_each_positive_decrement_witness :
    decrementsWithWaits (IndexSuccess.run_redirect sampleRedirectPage).trace =
      [(5, [1000]), (4, [1000]), (3, [1000]), (2, [1000]), (1, [1000]), (0, [])] ∧
    (∀ p ∈ decrementsWithWaits (IndexSuccess.run_redirect sampleRedirectPage).trace,
      (0 < p.1 → p.2 = [1000]) ∧ (p.1 ≤ 0 → p.2 = [])) ∧
    waits (stepsAfterWrite "You will be automatically redirected to the bot in 0."
      (IndexSuccess.run_redirect sampleRedirectPage).trace) = [] ∧
    waits (IndexSuccess.run_redirect sampleRedirectPage).trace =
      [1000, 1000, 1000, 1000, 1000] :=
  one_wait_before_each_positive_decrement sampleRedirectPage
    ⟨"p", [("id", "redirect-message"), ("data-redirect-url", "https://example.com/x")]⟩
    "https://example.com/x" (by decide) (by decide) (by decide)

/-! ## The ready-state trigger -/

/-- C6: for both scripts and every pair of documents (at evaluation, at the
`DOMContentLoaded` event): when `readyState` is not `"loading"` the script
calls `main` at once, on the document at evaluation, and registers no
listener; when it is `"loading"` the script calls nothing and registers
`main` for `DOMContentLoaded`, and `main` runs when the event is dispatched;
in either case `main` runs exactly once over the page load. -/
theorem ready_state_trigger_runs_main_once (docEval docReady : Document) :
    (docEval.readyState ≠ "loading" →
      (Analytics.script docEval).calls = [Analytics.main docEval] ∧
      (Analytics.script docEval).listeners = [] ∧
      (IndexSuccess.script docEval).calls = [IndexSuccess.main docEval] ∧
      (IndexSuccess.script docEval).listeners = [] ∧
      Analytics.pageLoad docEval docReady = [Analytics.main docEval] ∧
      IndexSuccess.pageLoad docEval docReady = [IndexSuccess.main docEval]) ∧
    (docEval.readyState = "loading" →
      (Analytics.script docEval).calls = [] ∧
      (Analytics.script docEval).listeners = ["DOMContentLoaded"] ∧
      (IndexSuccess.script docEval).calls = [] ∧
      (IndexSuccess.script docEval).listeners = ["DOMContentLoaded"] ∧
      Analytics.pageLoad docEval docReady = [Analytics.main docReady] ∧
      IndexSuccess.pageLoad docEval docReady = [IndexSuccess.main docReady]) ∧
    (Analytics.pageLoad docEval docReady).length = 1 ∧
    (IndexSuccess.pageLoad docEval docReady).length = 1 := by
  by_cases h : docEval.readyState = "loading"
  · simp [Analytics.pageLoad, IndexSuccess.pageLoad, Analytics.script, IndexSuccess.script,
      dispatchEvent, h]
  · simp [Analytics.pageLoad, IndexSuccess.pageLoad, Analytics.script, IndexSuccess.script,
      dispatchEvent, h]

/-- C6 at a page still loading (index-success.js) and at a page already parsed
(analytics.js). -/
theorem ready_state_trigger_runs_main_once_witness :
    IndexSuccess.pageLoad sampleLoadingPage sampleRedirectPage =
      [IndexSuccess.main sampleRedirectPage] ∧
    Analytics.pageLoad sampleStatusPage sampleStatusPage =
      [Analytics.main sampleStatusPage] :=
  ⟨((ready_state_trigger_runs_main_once sampleLoadingPage sampleRedirectPage).2.1
      (by decide)).2.2.2.2.2,
   ((ready_state_trigger_runs_main_once sampleStatusPage sampleStatusPage).1
      (by decide)).2.2.2.2.1⟩

end YdAuth
